import Mathlib

/-!
Verification of the PDF-to-Markdown job pipeline of `pdf_to_md/main.py`
(repository SaschaKiebler/ankiBot).

Text is embedded as lists of characters (`Str`), Python strings being
sequences of characters.  Page images are abstracted to the outcome the
vision model produces for them (`Except Str Str`: extracted text, or the
message of the raised exception), because nothing downstream of
`GoogleGenerativeAI.extract_text_from_image` inspects the image itself.
The external rasterizer `convert_from_bytes` is likewise an oracle: each
of the two call sites (explicit poppler path, system fallback) is given
by its outcome.
-/

namespace PdfToMd

/-- Python strings, embedded as their character lists. -/
abbrev Str := List Char

/-- Character list of a Lean string literal. -/
def lit (s : String) : Str := s.data

/-- Whitespace as recognised by Python's `str.strip()` (ASCII part:
space, tab, linefeed, carriage return, vertical tab, form feed). -/
def isPyWhitespace (c : Char) : Bool :=
  c = ' ' || c = '\t' || c = '\n' || c = '\r' || c = '\x0b' || c = '\x0c'

/-- Python `str.strip()`: remove leading and trailing whitespace. -/
def pyStrip (s : Str) : Str :=
  ((s.dropWhile isPyWhitespace).reverse.dropWhile isPyWhitespace).reverse

/-- Python `sep.join(parts)`. -/
def joinSep (sep : Str) : List Str → Str
  | [] => []
  | [s] => s
  | s :: rest => s ++ sep ++ joinSep sep rest

/-- The placeholder text built for a failed page in `_process_page`
(main.py line 155): `[Error processing page {page_num + 1}]`, the page
number being 1-based. -/
def errorPlaceholder (pageNum : Nat) : Str :=
  lit "[Error processing page " ++ (Nat.repr (pageNum + 1)).data ++ lit "]"

/-- `PDFProcessor._process_page` (main.py lines 130-155): wrap the
stripped extracted text in the page delimiters; if extraction raised,
return the placeholder wrapped in the same delimiters.  `pagePre` and
`pageSuf` model the two delimiter parameters of the source. -/
def processPage (pageNum : Nat) (pagePre pageSuf : Str)
    (outcome : Except Str Str) : Str :=
  match outcome with
  | .ok extracted => pagePre ++ pyStrip extracted ++ pageSuf
  | .error _ => pagePre ++ errorPlaceholder pageNum ++ pageSuf

/-- The per-page task list of `process_pdf` (main.py lines 211-214):
`for i, image in enumerate(images)` starting from index `i`. -/
def pageBlocksFrom (i : Nat) (pagePre pageSuf : Str) :
    List (Except Str Str) → List Str
  | [] => []
  | o :: rest => processPage i pagePre pageSuf o ::
      pageBlocksFrom (i + 1) pagePre pageSuf rest

/-- All page blocks of a document, in original page order.  `asyncio.gather`
(main.py line 217) returns the task results in the order the tasks were
created, i.e. in `enumerate` order. -/
def pageBlocks (outcomes : List (Except Str Str)) (pagePre pageSuf : Str) :
    List Str :=
  pageBlocksFrom 0 pagePre pageSuf outcomes

/-- Assembly of the final document (main.py line 220):
`"\n".join(markdown_pages)`. -/
def assemblePages (outcomes : List (Except Str Str))
    (pagePre pageSuf : Str) : Str :=
  joinSep (lit "\n") (pageBlocks outcomes pagePre pageSuf)

/-- Modelled from the spec's words (section 4.3), for comparison with
`assemblePages`: the concatenation, for each page in original index
order, of delimiter-open + trimmed extracted text + delimiter-close,
joined by a single newline between pages. -/
def specAssemble (texts : List Str) (pagePre pageSuf : Str) : Str :=
  joinSep (lit "\n") (texts.map (fun t => pagePre ++ pyStrip t ++ pageSuf))

/-- `models.py` lines 5-9: the job lifecycle enum. -/
inductive JobStatus where
  | PENDING
  | PROCESSING
  | SUCCESS
  | FAILED
deriving DecidableEq

/-- The string value of a `JobStatus` member, as interpolated into the
result-query error message (main.py line 428). -/
def statusStr : JobStatus → Str
  | .PENDING => lit "PENDING"
  | .PROCESSING => lit "PROCESSING"
  | .SUCCESS => lit "SUCCESS"
  | .FAILED => lit "FAILED"

/-- One entry of the in-memory `jobs` dict (main.py lines 250-262).
`result` holds the markdown of the `{"markdown": ...}` dict stored on
success, or `none` for the initial `None`; `file_content` is `none` once
the raw bytes have been deleted.  Timestamps are abstract ticks. -/
structure JobRecord where
  id : Str
  status : JobStatus
  created_at : Nat
  updated_at : Nat
  file_content : Option Str
  file_name : Str
  content_type : Str
  pagePre : Str
  pageSuf : Str
  result : Option Str
  error : Option Str
deriving DecidableEq

/-- Outcome of one run of `PDFProcessor.process_pdf` (main.py lines
157-228): the returned document or the raised error message, plus how
many times the underlying `convert_from_bytes` rendering call ran and
how many per-page extraction tasks were created. -/
structure PdfTrace where
  result : Except Str Str
  convertCalls : Nat
  extractionCalls : Nat

/-- `PDFProcessor.process_pdf` (main.py lines 157-228).  `att1` is the
oracle outcome of `convert_from_bytes(contents, poppler_path=...)`
(line 187) and `att2` that of the fallback `convert_from_bytes(contents)`
(line 193); a successful attempt yields the page list, each page given by
its extraction outcome.  An empty upload raises `File is empty`
(line 176); if both rendering attempts raise, the second exception is
wrapped as `Error converting PDF to images: ...` (lines 196-207). -/
def process_pdf (contents : Str)
    (att1 att2 : Except Str (List (Except Str Str)))
    (pagePre pageSuf : Str) : PdfTrace :=
  if contents = [] then
    { result := .error (lit "File is empty"), convertCalls := 0,
      extractionCalls := 0 }
  else
    match att1 with
    | .ok pages =>
        { result := .ok (assemblePages pages pagePre pageSuf),
          convertCalls := 1, extractionCalls := pages.length }
    | .error _ =>
        match att2 with
        | .ok pages =>
            { result := .ok (assemblePages pages pagePre pageSuf),
              convertCalls := 2, extractionCalls := pages.length }
        | .error e2 =>
            { result := .error (lit "Error converting PDF to images: " ++ e2),
              convertCalls := 2, extractionCalls := 0 }

/-- How `process_pdf_background` records the pipeline outcome on the job
(main.py lines 354-387).  An empty or whitespace-only document raises
`PDF processing returned empty content` (lines 354-355); on success the
raw bytes are deleted (lines 359-361) and the result stored (lines
363-366); any raised error is wrapped as `Error processing PDF: ...` and
recorded with status FAILED (lines 373-379), the raw bytes being left in
place.  The job's `result` key always exists (created at line 260), so
the guard at lines 386-387 never fires and `result` stays untouched on
failure. -/
def applyResult (j : JobRecord) (r : Except Str Str) : JobRecord :=
  match r with
  | .ok md =>
      if md = [] ∨ pyStrip md = [] then
        { j with status := .FAILED,
                 error := some (lit "Error processing PDF: PDF processing returned empty content"),
                 updated_at := j.updated_at + 1 }
      else
        { j with file_content := none, status := .SUCCESS,
                 result := some md, updated_at := j.updated_at + 1 }
  | .error e =>
      { j with status := .FAILED,
               error := some (lit "Error processing PDF: " ++ e),
               updated_at := j.updated_at + 1 }

/-- The status write at the start of `process_pdf_background` (main.py
lines 300-302): the job moves to `PROCESSING`. -/
def startJob (job : JobRecord) : JobRecord :=
  { job with status := JobStatus.PROCESSING,
             updated_at := job.updated_at + 1 }

/-- `process_pdf_background` (main.py lines 292-387) for a job already in
the store: set status `PROCESSING` (lines 300-302), reject a missing or
empty (falsy) `file_content` (lines 310-312), run the pipeline and record
its outcome. -/
def process_pdf_background (job : JobRecord)
    (att1 att2 : Except Str (List (Except Str Str))) : JobRecord :=
  match job.file_content with
  | none =>
      applyResult (startJob job)
        (.error (lit "No file content found in job data"))
  | some contents =>
    if contents = [] then
      applyResult (startJob job)
        (.error (lit "No file content found in job data"))
    else
      applyResult (startJob job)
        (process_pdf contents att1 att2 job.pagePre job.pageSuf).result

/-- `models.py` lines 19-23: body of a successful upload response. -/
structure UploadResponse where
  id : Str
  status : JobStatus
  created_at : Nat
  updated_at : Nat
deriving DecidableEq

/-- The job record created by `upload_pdf` (main.py lines 250-262). -/
def mkJob (jobId : Str) (now : Nat)
    (contents fname ctype pagePre pageSuf : Str) : JobRecord :=
  { id := jobId, status := .PENDING, created_at := now, updated_at := now,
    file_content := some contents, file_name := fname,
    content_type := ctype, pagePre := pagePre, pageSuf := pageSuf,
    result := none, error := none }

/-- What `upload_pdf` leaves behind: the record stored in `jobs` (if any)
at the moment the HTTP response is produced, and the response itself
(an `Except` carrying the HTTP error code and detail on failure). -/
structure UploadOutcome where
  stored : Option JobRecord
  response : Except (Nat × Str) UploadResponse

/-- `upload_pdf` (main.py lines 230-290): an empty upload raises before
any job is stored (lines 246-247) and surfaces as a 500; otherwise the
job is stored with status `PENDING` (lines 250-265), the background task
is only scheduled — `asyncio.create_task` does not run it before the
handler returns — and the response reports status `PROCESSING`
(lines 272-277). -/
def upload_pdf (jobId : Str) (now : Nat)
    (contents fname ctype pagePre pageSuf : Str) : UploadOutcome :=
  if contents = [] then
    { stored := none,
      response := .error (500, lit "Error processing file: Uploaded file is empty") }
  else
    { stored := some (mkJob jobId now contents fname ctype pagePre pageSuf),
      response := .ok { id := jobId, status := .PROCESSING,
                        created_at := now, updated_at := now } }

/-- `models.py` lines 11-17: body of a status response. -/
structure JobResponse where
  id : Str
  status : JobStatus
  created_at : Nat
  updated_at : Nat
  result : Option Str
  error : Option Str
deriving DecidableEq

/-- `get_job_status` (main.py lines 389-413): 404 for an unknown id,
otherwise the job's current fields. -/
def get_job_status (store : Str → Option JobRecord) (jobId : Str) :
    Except (Nat × Str) JobResponse :=
  match store jobId with
  | none => .error (404, lit "Job not found")
  | some job =>
      .ok { id := job.id, status := job.status,
            created_at := job.created_at, updated_at := job.updated_at,
            result := job.result, error := job.error }

/-- `get_job_result_markdown` (main.py lines 415-446): 404 for an unknown
id; a 400 whose detail interpolates the current status and any recorded
error when the job is not in `SUCCESS`; a 500 when a `SUCCESS` job has a
falsy result; otherwise the stored markdown as plain text. -/
def get_job_result_markdown (store : Str → Option JobRecord)
    (jobId : Str) : Except (Nat × Str) Str :=
  match store jobId with
  | none => .error (404, lit "Job not found")
  | some job =>
    if job.status = JobStatus.SUCCESS then
      match job.result with
      | none => .error (500, lit "Job completed but no markdown result found")
      | some md =>
          if md = [] then
            .error (500, lit "Job completed but no markdown result found")
          else .ok md
    else
      .error (400, lit "Job status is " ++ statusStr job.status ++ lit ". " ++
        (match job.error with
         | some e => lit "Error: " ++ e
         | none => []))

/-- The status writes the code can perform on one job record:
creation-to-start (main.py line 301), start-to-terminal (lines 364, 377)
and the upload handler's own failure write (line 284), which can only
happen while the job is still `PENDING`. -/
inductive StatusStep : JobStatus → JobStatus → Prop
  | start : StatusStep .PENDING .PROCESSING
  | finishSuccess : StatusStep .PROCESSING .SUCCESS
  | finishFailed : StatusStep .PROCESSING .FAILED
  | uploadFailed : StatusStep .PENDING .FAILED

/-- Events of the page fan-out: task `i` issues its extraction call, or
task `i`'s call completes. -/
inductive FanEvent where
  | start (i : Nat)
  | finish (i : Nat)
deriving DecidableEq

/-- Running count of in-flight extraction calls. -/
def inFlightStep (c : Nat) : FanEvent → Nat
  | .start _ => c + 1
  | .finish _ => c - 1

/-- Peak number of simultaneously in-flight extraction calls along a
trace of fan-out events. -/
def peakInFlight (tr : List FanEvent) : Nat :=
  (tr.scanl inFlightStep 0).foldr Nat.max 0

/-- A cooperative execution of the fan-out in `process_pdf` (main.py
lines 209-217): the loop creates one task per page with
`asyncio.create_task` and no semaphore or pool before `asyncio.gather`
is awaited, so every task reaches its network call before any response
is consumed — all `n` calls are then in flight at once. -/
def fanoutTrace (n : Nat) : List FanEvent :=
  (List.range n).map FanEvent.start ++ (List.range n).map FanEvent.finish

/-- `MAX_WORKERS` (main.py line 40).  The constant is defined but never
referenced anywhere else in the source. -/
def MAX_WORKERS : Nat := 10

/-- A concrete freshly uploaded job, used to instantiate the theorems
below on closed inputs. -/
def sampleJob : JobRecord :=
  mkJob (lit "job-1") 0 (lit "PDF") (lit "a.pdf")
    (lit "application/pdf") (lit "\n---\n") (lit "\n---\n")

/-- A concrete job record in the state the driver leaves after a
successful run, used to instantiate the query theorems. -/
def doneJob : JobRecord :=
  { sampleJob with status := .SUCCESS, result := some (lit "hello"),
                   file_content := none }

/-! ### Helper lemmas -/

theorem length_pageBlocksFrom (pagePre pageSuf : Str) :
    ∀ (i : Nat) (l : List (Except Str Str)),
      (pageBlocksFrom i pagePre pageSuf l).length = l.length
  | _, [] => rfl
  | i, _ :: rest => by
      simp [pageBlocksFrom, length_pageBlocksFrom pagePre pageSuf (i + 1) rest]

theorem pageBlocksFrom_get? (pagePre pageSuf : Str) :
    ∀ (l : List (Except Str Str)) (i k : Nat),
      (pageBlocksFrom i pagePre pageSuf l).get? k
        = (l.get? k).map (fun o => processPage (i + k) pagePre pageSuf o)
  | [], _, _ => by simp [pageBlocksFrom]
  | _ :: _, _, 0 => by simp [pageBlocksFrom]
  | _ :: rest, i, (k + 1) => by
      have h : i + (k + 1) = (i + 1) + k := by omega
      rw [h]
      exact pageBlocksFrom_get? pagePre pageSuf rest (i + 1) k

theorem pageBlocksFrom_map_ok (pagePre pageSuf : Str) :
    ∀ (i : Nat) (texts : List Str),
      pageBlocksFrom i pagePre pageSuf (texts.map Except.ok)
        = texts.map (fun t => pagePre ++ pyStrip t ++ pageSuf)
  | _, [] => rfl
  | i, _ :: rest => by
      simp [pageBlocksFrom, processPage,
        pageBlocksFrom_map_ok pagePre pageSuf (i + 1) rest]

theorem mem_joinSep (c : Char) (sep : Str) :
    ∀ (L : List Str) (s : Str), s ∈ L → c ∈ s → c ∈ joinSep sep L
  | [], s, hs, _ => absurd hs (List.not_mem_nil s)
  | [x], s, hs, hc => by
      rw [List.mem_singleton] at hs
      subst hs
      simpa [joinSep] using hc
  | x :: y :: t, s, hs, hc => by
      rcases List.mem_cons.mp hs with h | h
      · subst h
        show c ∈ (s ++ sep) ++ joinSep sep (y :: t)
        exact List.mem_append_left _ (List.mem_append_left _ hc)
      · have ih := mem_joinSep c sep (y :: t) s h hc
        show c ∈ (x ++ sep) ++ joinSep sep (y :: t)
        exact List.mem_append_right _ ih

theorem mem_dropWhile (p : Char → Bool) (c : Char) (hc : p c = false) :
    ∀ (l : Str), c ∈ l → c ∈ l.dropWhile p
  | [], h => absurd h (List.not_mem_nil c)
  | x :: t, h => by
      by_cases hx : p x = true
      · rw [List.dropWhile_cons_of_pos hx]
        rcases List.mem_cons.mp h with h' | h'
        · subst h'
          rw [hc] at hx
          exact absurd hx (by simp)
        · exact mem_dropWhile p c hc t h'
      · rw [List.dropWhile_cons_of_neg hx]
        exact h

theorem pyStrip_ne_nil {c : Char} (hw : isPyWhitespace c = false) {s : Str}
    (hm : c ∈ s) : pyStrip s ≠ [] := by
  intro h
  unfold pyStrip at h
  rw [List.reverse_eq_nil_iff] at h
  have h1 : c ∈ s.dropWhile isPyWhitespace := mem_dropWhile _ c hw s hm
  have h2 : c ∈ (s.dropWhile isPyWhitespace).reverse := List.mem_reverse.mpr h1
  have h3 : c ∈ (s.dropWhile isPyWhitespace).reverse.dropWhile isPyWhitespace :=
    mem_dropWhile _ c hw _ h2
  rw [h] at h3
  exact List.not_mem_nil c h3

theorem applyResult_status_terminal (j : JobRecord) (r : Except Str Str) :
    (applyResult j r).status = JobStatus.SUCCESS ∨
    (applyResult j r).status = JobStatus.FAILED := by
  cases r with
  | ok md =>
      by_cases hmd : md = [] ∨ pyStrip md = []
      · right; simp [applyResult, hmd]
      · left; simp [applyResult, hmd]
  | error e => right; simp [applyResult]

theorem applyResult_success {j : JobRecord} {r : Except Str Str}
    (h : (applyResult j r).status = JobStatus.SUCCESS) :
    ∃ md, r = .ok md ∧ md ≠ [] ∧ pyStrip md ≠ [] ∧
      applyResult j r = { j with file_content := none,
                                 status := JobStatus.SUCCESS,
                                 result := some md,
                                 updated_at := j.updated_at + 1 } := by
  cases r with
  | ok md =>
      by_cases hmd : md = [] ∨ pyStrip md = []
      · exfalso; simp [applyResult, hmd] at h
      · push_neg at hmd
        refine ⟨md, rfl, hmd.1, hmd.2, ?_⟩
        simp [applyResult, hmd.1, hmd.2]
  | error e => exfalso; simp [applyResult] at h

theorem applyResult_failed {j : JobRecord} {r : Except Str Str}
    (h : (applyResult j r).status = JobStatus.FAILED) :
    (∃ e, (applyResult j r).error = some e)
    ∧ (applyResult j r).result = j.result
    ∧ (applyResult j r).file_content = j.file_content := by
  cases r with
  | ok md =>
      by_cases hmd : md = [] ∨ pyStrip md = []
      · exact ⟨⟨lit "Error processing PDF: PDF processing returned empty content",
            by simp [applyResult, hmd]⟩,
          by simp [applyResult, hmd], by simp [applyResult, hmd]⟩
      · exfalso; simp [applyResult, hmd] at h
  | error e =>
      exact ⟨⟨lit "Error processing PDF: " ++ e, by simp [applyResult]⟩,
        by simp [applyResult], by simp [applyResult]⟩

theorem applyResult_preserves (j : JobRecord) (r : Except Str Str) :
    (applyResult j r).id = j.id
    ∧ (applyResult j r).created_at = j.created_at
    ∧ (applyResult j r).file_name = j.file_name
    ∧ (applyResult j r).content_type = j.content_type
    ∧ (applyResult j r).pagePre = j.pagePre
    ∧ (applyResult j r).pageSuf = j.pageSuf := by
  cases r with
  | ok md =>
      by_cases hmd : md = [] ∨ pyStrip md = [] <;>
        refine ⟨?_, ?_, ?_, ?_, ?_, ?_⟩ <;> simp [applyResult, hmd]
  | error e => refine ⟨?_, ?_, ?_, ?_, ?_, ?_⟩ <;> simp [applyResult]

theorem bg_decomp (job : JobRecord)
    (a1 a2 : Except Str (List (Except Str Str))) :
    ∃ r, process_pdf_background job a1 a2 = applyResult (startJob job) r := by
  obtain ⟨i, st, ca, ua, fc, fn, ct, pp, ps, res, err⟩ := job
  cases fc with
  | none => exact ⟨.error (lit "No file content found in job data"), rfl⟩
  | some contents =>
      by_cases h : contents = []
      · subst h
        exact ⟨.error (lit "No file content found in job data"), rfl⟩
      · exact ⟨(process_pdf contents a1 a2 pp ps).result,
          by simp [process_pdf_background, h]⟩

theorem startJob_fields (job : JobRecord) :
    (startJob job).id = job.id ∧ (startJob job).created_at = job.created_at
    ∧ (startJob job).file_name = job.file_name
    ∧ (startJob job).content_type = job.content_type
    ∧ (startJob job).pagePre = job.pagePre
    ∧ (startJob job).pageSuf = job.pageSuf
    ∧ (startJob job).result = job.result
    ∧ (startJob job).error = job.error
    ∧ (startJob job).file_content = job.file_content :=
  ⟨rfl, rfl, rfl, rfl, rfl, rfl, rfl, rfl, rfl⟩

theorem bg_success {job : JobRecord}
    {a1 a2 : Except Str (List (Except Str Str))}
    (h : (process_pdf_background job a1 a2).status = JobStatus.SUCCESS) :
    ∃ md, (process_pdf_background job a1 a2).result = some md ∧ md ≠ []
      ∧ pyStrip md ≠ []
      ∧ (process_pdf_background job a1 a2).file_content = none
      ∧ (process_pdf_background job a1 a2).error = job.error := by
  obtain ⟨r, hr⟩ := bg_decomp job a1 a2
  rw [hr] at h ⊢
  obtain ⟨md, _, h1, h2, heq⟩ := applyResult_success h
  rw [heq]
  exact ⟨md, rfl, h1, h2, rfl, (startJob_fields job).2.2.2.2.2.2.2.1⟩

/-! ### Claim theorems -/

/-- Claim C1: for every non-empty ordered sequence of page images and
every delimiter pair, the assembled document equals the concatenation,
for each page in original 0-based index order, of delimiter-open +
stripped extracted text + delimiter-close, with a single newline joining
consecutive page blocks; in particular a document with N pages yields
exactly N page blocks in page order. -/
theorem assemble_matches_spec (texts : List Str) (pagePre pageSuf : Str)
    (hne : texts ≠ []) :
    assemblePages (texts.map Except.ok) pagePre pageSuf
        = specAssemble texts pagePre pageSuf
    ∧ (pageBlocks (texts.map Except.ok) pagePre pageSuf).length
        = texts.length := by
  constructor
  · unfold assemblePages specAssemble pageBlocks
    rw [pageBlocksFrom_map_ok]
  · unfold pageBlocks
    rw [length_pageBlocksFrom, List.length_map]

/-- Witness for C1 at a concrete two-page document. -/
theorem assemble_matches_spec_witness :
    assemblePages [Except.ok (lit " hi "), Except.ok (lit "yo")]
        (lit "P") (lit "S")
      = specAssemble [lit " hi ", lit "yo"] (lit "P") (lit "S")
    ∧ (pageBlocks [Except.ok (lit " hi "), Except.ok (lit "yo")]
        (lit "P") (lit "S")).length = 2 :=
  assemble_matches_spec [lit " hi ", lit "yo"] (lit "P") (lit "S")
    (by decide)

/-- Claim C2 is refuted by the code: `process_pdf` creates one task per
page before awaiting the gather, with no semaphore or worker pool, so
for an 11-page document all 11 extraction calls are simultaneously in
flight, exceeding the documented ceiling `MAX_WORKERS = 10` (a constant
the source defines but never uses). -/
theorem fanout_exceeds_ceiling :
    peakInFlight (fanoutTrace 11) = 11
    ∧ MAX_WORKERS < peakInFlight (fanoutTrace 11) := by
  constructor <;> decide

/-- Claim C3: if exactly one page (out of N greater than 1) fails
extraction, the assembled result still has N page blocks in order, the
failed page's block is the 1-based placeholder wrapped in the same
delimiters, and the job still reaches SUCCESS. -/
theorem single_page_failure_recovered
    (outcomes : List (Except Str Str)) (k : Nat) (e : Str)
    (hn : 1 < outcomes.length)
    (hke : outcomes.get? k = some (Except.error e))
    (hother : ∀ i, i < outcomes.length → i ≠ k →
        ∃ t, outcomes.get? i = some (Except.ok t))
    (job : JobRecord) (contents : Str)
    (hfc : job.file_content = some contents) (hc : contents ≠ [])
    (att2 : Except Str (List (Except Str Str))) :
    (pageBlocks outcomes job.pagePre job.pageSuf).length = outcomes.length
    ∧ (pageBlocks outcomes job.pagePre job.pageSuf).get? k
        = some (job.pagePre ++ errorPlaceholder k ++ job.pageSuf)
    ∧ (process_pdf_background job (.ok outcomes) att2).status
        = JobStatus.SUCCESS := by
  have hget : (pageBlocks outcomes job.pagePre job.pageSuf).get? k
      = some (job.pagePre ++ errorPlaceholder k ++ job.pageSuf) := by
    unfold pageBlocks
    rw [pageBlocksFrom_get?, hke]
    simp [processPage]
  refine ⟨?_, hget, ?_⟩
  · unfold pageBlocks
    rw [length_pageBlocksFrom]
  · have hmem : (job.pagePre ++ errorPlaceholder k ++ job.pageSuf)
        ∈ pageBlocks outcomes job.pagePre job.pageSuf :=
      List.get?_mem hget
    have hbr : '[' ∈ errorPlaceholder k :=
      List.mem_append_left _ (List.mem_append_left _
        (by decide : '[' ∈ lit "[Error processing page "))
    have hblk : '[' ∈ job.pagePre ++ errorPlaceholder k ++ job.pageSuf :=
      List.mem_append_left _ (List.mem_append_right _ hbr)
    have hmd : '[' ∈ assemblePages outcomes job.pagePre job.pageSuf :=
      mem_joinSep '[' (lit "\n") _ _ hmem hblk
    have h1 : assemblePages outcomes job.pagePre job.pageSuf ≠ [] :=
      List.ne_nil_of_mem hmd
    have h2 : pyStrip (assemblePages outcomes job.pagePre job.pageSuf) ≠ [] :=
      pyStrip_ne_nil (by decide) hmd
    simp [process_pdf_background, process_pdf, applyResult, startJob,
      hfc, hc, h1, h2]

/-- Witness for C3: a two-page document whose second page fails. -/
theorem single_page_failure_recovered_witness :
    (pageBlocks [Except.ok (lit "a"), Except.error (lit "boom")]
        sampleJob.pagePre sampleJob.pageSuf).length = 2
    ∧ (pageBlocks [Except.ok (lit "a"), Except.error (lit "boom")]
        sampleJob.pagePre sampleJob.pageSuf).get? 1
        = some (sampleJob.pagePre ++ errorPlaceholder 1 ++ sampleJob.pageSuf)
    ∧ (process_pdf_background sampleJob
        (.ok [Except.ok (lit "a"), Except.error (lit "boom")])
        (.error (lit "x"))).status = JobStatus.SUCCESS :=
  single_page_failure_recovered
    [Except.ok (lit "a"), Except.error (lit "boom")] 1 (lit "boom")
    (by decide) rfl
    (by
      intro i hi hne
      have h2 : i < 2 := by simpa using hi
      interval_cases i
      · exact ⟨lit "a", rfl⟩
      · exact absurd rfl hne)
    sampleJob (lit "PDF") rfl (by decide) (.error (lit "x"))

/-- Claim C4: a document whose rasterization yields zero pages (so the
assembled content is empty) drives the job to FAILED with a descriptive
error, and no run of the driver ever reaches SUCCESS with an empty
result. -/
theorem empty_document_fails (job : JobRecord) (contents : Str)
    (att1 att2 : Except Str (List (Except Str Str)))
    (hfc : job.file_content = some contents) (hc : contents ≠ [])
    (hzero : att1 = .ok [] ∨ ((∃ e1, att1 = .error e1) ∧ att2 = .ok [])) :
    ((process_pdf_background job att1 att2).status = JobStatus.FAILED
      ∧ (process_pdf_background job att1 att2).error
          = some (lit "Error processing PDF: PDF processing returned empty content"))
    ∧ ∀ (b1 b2 : Except Str (List (Except Str Str))),
        (process_pdf_background job b1 b2).status = JobStatus.SUCCESS →
        ∃ md, (process_pdf_background job b1 b2).result = some md
          ∧ md ≠ [] := by
  constructor
  · rcases hzero with rfl | ⟨⟨e1, rfl⟩, rfl⟩
    · constructor <;>
        simp [process_pdf_background, process_pdf, applyResult, startJob,
          assemblePages, pageBlocks, pageBlocksFrom, joinSep, hfc, hc]
    · constructor <;>
        simp [process_pdf_background, process_pdf, applyResult, startJob,
          assemblePages, pageBlocks, pageBlocksFrom, joinSep, hfc, hc]
  · intro b1 b2 hs
    obtain ⟨md, hres, hne, -, -, -⟩ := bg_success hs
    exact ⟨md, hres, hne⟩

/-- Witness for C4: the sample job with a zero-page rasterization. -/
theorem empty_document_fails_witness :
    ((process_pdf_background sampleJob (.ok []) (.error (lit "x"))).status
        = JobStatus.FAILED
      ∧ (process_pdf_background sampleJob (.ok []) (.error (lit "x"))).error
          = some (lit "Error processing PDF: PDF processing returned empty content"))
    ∧ ∀ (b1 b2 : Except Str (List (Except Str Str))),
        (process_pdf_background sampleJob b1 b2).status = JobStatus.SUCCESS →
        ∃ md, (process_pdf_background sampleJob b1 b2).result = some md
          ∧ md ≠ [] :=
  empty_document_fails sampleJob (lit "PDF") (.ok []) (.error (lit "x"))
    rfl (by decide) (Or.inl rfl)

/-- Counterexample to claim C5 as stated: for a document that cannot be
rasterized, the underlying rendering call runs twice (explicit poppler
path, then system fallback), not exactly once. -/
theorem raster_called_twice :
    (process_pdf (lit "PDF") (.error (lit "a")) (.error (lit "b"))
        (lit "\n---\n") (lit "\n---\n")).convertCalls = 2
    ∧ (process_pdf (lit "PDF") (.error (lit "a")) (.error (lit "b"))
        (lit "\n---\n") (lit "\n---\n")).convertCalls ≠ 1 := by
  constructor <;> decide

/-- Claim C5 as amended: for a document that cannot be rasterized the
rendering call is invoked exactly twice — once with an explicit poppler
path and once falling back to the system path — no extraction call is
made, and the failure surfaces as the job's terminal FAILED error. -/
theorem raster_failure_surfaced (job : JobRecord) (contents e1 e2 : Str)
    (hfc : job.file_content = some contents) (hc : contents ≠ []) :
    (process_pdf contents (.error e1) (.error e2)
        job.pagePre job.pageSuf).convertCalls = 2
    ∧ (process_pdf contents (.error e1) (.error e2)
        job.pagePre job.pageSuf).extractionCalls = 0
    ∧ (process_pdf contents (.error e1) (.error e2)
        job.pagePre job.pageSuf).result
        = .error (lit "Error converting PDF to images: " ++ e2)
    ∧ (process_pdf_background job (.error e1) (.error e2)).status
        = JobStatus.FAILED
    ∧ (process_pdf_background job (.error e1) (.error e2)).error
        = some (lit "Error processing PDF: "
            ++ (lit "Error converting PDF to images: " ++ e2)) := by
  refine ⟨?_, ?_, ?_, ?_, ?_⟩ <;>
    simp [process_pdf_background, process_pdf, applyResult, startJob,
      hfc, hc]

/-- Witness for C5 (amended) at the sample job. -/
theorem raster_failure_surfaced_witness :
    (process_pdf_background sampleJob (.error (lit "a"))
        (.error (lit "nope"))).status = JobStatus.FAILED :=
  (raster_failure_surfaced sampleJob (lit "PDF") (lit "a") (lit "nope")
    rfl (by decide)).2.2.2.1

/-- Claim C6: once the driver has finished with a freshly created job
(one whose result and error start out absent), the job is terminal and
exactly one of result/error is present: on SUCCESS the result is present
and the error absent, on FAILED the error is present and the result
absent. -/
theorem terminal_result_error_exclusive (job : JobRecord)
    (a1 a2 : Except Str (List (Except Str Str)))
    (hres : job.result = none) (herr : job.error = none) :
    ((process_pdf_background job a1 a2).status = JobStatus.SUCCESS
      ∨ (process_pdf_background job a1 a2).status = JobStatus.FAILED)
    ∧ ((process_pdf_background job a1 a2).status = JobStatus.SUCCESS →
        (∃ md, (process_pdf_background job a1 a2).result = some md)
        ∧ (process_pdf_background job a1 a2).error = none)
    ∧ ((process_pdf_background job a1 a2).status = JobStatus.FAILED →
        (∃ e, (process_pdf_background job a1 a2).error = some e)
        ∧ (process_pdf_background job a1 a2).result = none) := by
  obtain ⟨r, hr⟩ := bg_decomp job a1 a2
  refine ⟨?_, ?_, ?_⟩
  · rw [hr]; exact applyResult_status_terminal _ _
  · intro hs
    obtain ⟨md, hmd, -, -, -, herr'⟩ := bg_success hs
    exact ⟨⟨md, hmd⟩, herr' ▸ herr⟩
  · intro hs
    rw [hr] at hs ⊢
    obtain ⟨⟨e, he⟩, hres', -⟩ := applyResult_failed hs
    refine ⟨⟨e, he⟩, ?_⟩
    rw [hres', (startJob_fields job).2.2.2.2.2.2.1, hres]

/-- Witness for C6: the sample job run with a failing rasterizer. -/
theorem terminal_result_error_exclusive_witness :
    ((process_pdf_background sampleJob (.error (lit "a"))
        (.error (lit "b"))).status = JobStatus.SUCCESS
      ∨ (process_pdf_background sampleJob (.error (lit "a"))
        (.error (lit "b"))).status = JobStatus.FAILED)
    ∧ ((process_pdf_background sampleJob (.error (lit "a"))
        (.error (lit "b"))).status = JobStatus.SUCCESS →
        (∃ md, (process_pdf_background sampleJob (.error (lit "a"))
          (.error (lit "b"))).result = some md)
        ∧ (process_pdf_background sampleJob (.error (lit "a"))
            (.error (lit "b"))).error = none)
    ∧ ((process_pdf_background sampleJob (.error (lit "a"))
        (.error (lit "b"))).status = JobStatus.FAILED →
        (∃ e, (process_pdf_background sampleJob (.error (lit "a"))
          (.error (lit "b"))).error = some e)
        ∧ (process_pdf_background sampleJob (.error (lit "a"))
            (.error (lit "b"))).result = none) :=
  terminal_result_error_exclusive sampleJob (.error (lit "a"))
    (.error (lit "b")) rfl rfl

/-- Counterexample to claim C7 as stated: a job that fails rasterization
reaches terminal FAILED with its error recorded while the record still
holds the raw source bytes. -/
theorem bytes_retained_on_failure :
    (process_pdf_background sampleJob (.error (lit "a"))
        (.error (lit "b"))).status = JobStatus.FAILED
    ∧ (process_pdf_background sampleJob (.error (lit "a"))
        (.error (lit "b"))).error
        = some (lit "Error processing PDF: Error converting PDF to images: b")
    ∧ (process_pdf_background sampleJob (.error (lit "a"))
        (.error (lit "b"))).file_content = some (lit "PDF") := by
  refine ⟨?_, ?_, ?_⟩ <;> decide

/-- Claim C7 as amended: the raw source bytes are discarded exactly when
a SUCCESS result is recorded — on FAILED they are retained — and the
driver never changes the job's identity fields (id, created_at, file
name, content type, delimiters). -/
theorem discard_on_success (job : JobRecord)
    (a1 a2 : Except Str (List (Except Str Str))) :
    ((process_pdf_background job a1 a2).status = JobStatus.SUCCESS →
      (process_pdf_background job a1 a2).file_content = none)
    ∧ ((process_pdf_background job a1 a2).status = JobStatus.FAILED →
      (process_pdf_background job a1 a2).file_content = job.file_content)
    ∧ (process_pdf_background job a1 a2).id = job.id
    ∧ (process_pdf_background job a1 a2).created_at = job.created_at
    ∧ (process_pdf_background job a1 a2).file_name = job.file_name
    ∧ (process_pdf_background job a1 a2).content_type = job.content_type
    ∧ (process_pdf_background job a1 a2).pagePre = job.pagePre
    ∧ (process_pdf_background job a1 a2).pageSuf = job.pageSuf := by
  obtain ⟨r, hr⟩ := bg_decomp job a1 a2
  obtain ⟨hid, hca, hfn, hct, hpp, hps⟩ := applyResult_preserves (startJob job) r
  obtain ⟨sid, sca, sfn, sct, spp, sps, -, -, sfc⟩ := startJob_fields job
  refine ⟨?_, ?_, ?_, ?_, ?_, ?_, ?_, ?_⟩
  · intro hs
    obtain ⟨-, -, -, -, hfc, -⟩ := bg_success hs
    exact hfc
  · intro hs
    rw [hr] at hs ⊢
    obtain ⟨-, -, hfc⟩ := applyResult_failed hs
    rw [hfc, sfc]
  · rw [hr, hid, sid]
  · rw [hr, hca, sca]
  · rw [hr, hfn, sfn]
  · rw [hr, hct, sct]
  · rw [hr, hpp, spp]
  · rw [hr, hps, sps]

/-- Witness for C7 (amended): a successful run of the sample job drops
the raw bytes. -/
theorem discard_on_success_witness :
    (process_pdf_background sampleJob (.ok [Except.ok (lit "hello")])
        (.error (lit "x"))).file_content = none :=
  (discard_on_success sampleJob (.ok [Except.ok (lit "hello")])
    (.error (lit "x"))).1 (by decide)

/-- Claim C8: the status writes the code performs on a job follow
PENDING to PROCESSING to a terminal state, and the terminal statuses
SUCCESS and FAILED have no outgoing write; hence along any sequence of
writes, once a query observes a terminal status every later query
observes that same status, never PENDING or PROCESSING. -/
theorem status_monotonic (s t : JobStatus)
    (hterm : s = JobStatus.SUCCESS ∨ s = JobStatus.FAILED)
    (h : Relation.ReflTransGen StatusStep s t) : t = s := by
  induction h with
  | refl => rfl
  | tail h1 h2 ih =>
      rcases hterm with rfl | rfl <;>
        · subst ih
          cases h2

/-- Witness for C8: from SUCCESS only SUCCESS is reachable. -/
theorem status_monotonic_witness : JobStatus.SUCCESS = JobStatus.SUCCESS :=
  status_monotonic JobStatus.SUCCESS JobStatus.SUCCESS (Or.inl rfl)
    Relation.ReflTransGen.refl

/-- Claim C9: assuming the driver invariant that a SUCCESS job carries a
non-empty markdown result, the markdown result query returns the stored
document exactly when the job exists with status SUCCESS; an unknown
identifier yields 404, and a non-SUCCESS job yields a 400 whose message
spells out the current status and any recorded error. -/
theorem result_markdown_contract (store : Str → Option JobRecord)
    (jobId : Str)
    (hInv : ∀ job, store jobId = some job →
        job.status = JobStatus.SUCCESS →
        ∃ md, job.result = some md ∧ md ≠ []) :
    (store jobId = none →
        get_job_result_markdown store jobId
          = .error (404, lit "Job not found"))
    ∧ (∀ job md, store jobId = some job →
        job.status = JobStatus.SUCCESS → job.result = some md →
        get_job_result_markdown store jobId = .ok md)
    ∧ (∀ job, store jobId = some job →
        job.status ≠ JobStatus.SUCCESS →
        get_job_result_markdown store jobId
          = .error (400, lit "Job status is " ++ statusStr job.status
              ++ lit ". "
              ++ (match job.error with
                  | some e => lit "Error: " ++ e
                  | none => [])))
    ∧ ((∃ md, get_job_result_markdown store jobId = .ok md)
        ↔ ∃ job, store jobId = some job
            ∧ job.status = JobStatus.SUCCESS) := by
  refine ⟨?_, ?_, ?_, ?_⟩
  · intro h
    simp [get_job_result_markdown, h]
  · intro job md hj hs hr
    obtain ⟨md', hmd', hne⟩ := hInv job hj hs
    rw [hr] at hmd'
    obtain rfl : md' = md := by injection hmd' with h; exact h.symm
    simp [get_job_result_markdown, hj, hs, hr, hne]
  · intro job hj hs
    simp [get_job_result_markdown, hj, hs]
  · constructor
    · rintro ⟨md, h⟩
      unfold get_job_result_markdown at h
      cases hst : store jobId with
      | none => rw [hst] at h; simp at h
      | some job =>
          rw [hst] at h
          refine ⟨job, rfl, ?_⟩
          by_contra hns
          simp [hns] at h
    · rintro ⟨job, hj, hs⟩
      obtain ⟨md, hmd, hne⟩ := hInv job hj hs
      exact ⟨md, by simp [get_job_result_markdown, hj, hs, hmd, hne]⟩

/-- Witness for C9: a store holding one finished job. -/
theorem result_markdown_contract_witness :
    get_job_result_markdown (fun _ => some doneJob) (lit "j")
      = .ok (lit "hello") :=
  (result_markdown_contract (fun _ => some doneJob) (lit "j")
    (by
      intro job hj hs
      obtain rfl : doneJob = job := by injection hj
      exact ⟨lit "hello", rfl, by decide⟩)).2.1
    doneJob (lit "hello") rfl rfl rfl

/-- Claim C10: a successful upload stores the job with status PENDING
but reports status PROCESSING in the response, so the reported initial
status never equals the stored status at response time. -/
theorem upload_status_mismatch (jobId : Str) (now : Nat)
    (contents fname ctype pagePre pageSuf : Str) (hc : contents ≠ []) :
    ∃ job resp,
      (upload_pdf jobId now contents fname ctype pagePre pageSuf).stored
          = some job
      ∧ (upload_pdf jobId now contents fname ctype pagePre pageSuf).response
          = .ok resp
      ∧ resp.status = JobStatus.PROCESSING
      ∧ job.status = JobStatus.PENDING
      ∧ resp.status ≠ job.status := by
  refine ⟨mkJob jobId now contents fname ctype pagePre pageSuf,
    { id := jobId, status := .PROCESSING, created_at := now,
      updated_at := now }, ?_, ?_, rfl, rfl, by simp [mkJob]⟩
  · simp [upload_pdf, hc]
  · simp [upload_pdf, hc]

/-- Witness for C10 at a concrete upload. -/
theorem upload_status_mismatch_witness :
    ∃ job resp,
      (upload_pdf (lit "j") 0 (lit "PDF") (lit "a.pdf") (lit "t")
          (lit "P") (lit "S")).stored = some job
      ∧ (upload_pdf (lit "j") 0 (lit "PDF") (lit "a.pdf") (lit "t")
          (lit "P") (lit "S")).response = .ok resp
      ∧ resp.status = JobStatus.PROCESSING
      ∧ job.status = JobStatus.PENDING
      ∧ resp.status ≠ job.status :=
  upload_status_mismatch (lit "j") 0 (lit "PDF") (lit "a.pdf") (lit "t")
    (lit "P") (lit "S") (by decide)

end PdfToMd
